import Mathlib

/-!
Shallow embedding of the UIScroller viewport coordinator
(`packages/react-demo/src/components/UIWindow.tsx`) together with the entry
lifecycle channel it provides to entries (`WindowContext.tsx`,
`OuterEntry.tsx`).

Modelling conventions:
* All pixel quantities are integers (`Int`).  In the source, entry heights
  are produced by `Math.round` / `Math.ceil` (OuterEntry.tsx lines 45 and
  79) and DOM `clientHeight` / `scrollHeight` are integral, so the
  `Math.round` calls inside `recomputeSpacer`, `isAtBottom` and the scroll
  primitives are the identity on the values that actually flow through
  them; the embedding therefore works directly over `Int`.
* The mutable React component instance is modelled as a `Coordinator`
  record; each handler of the component becomes a state-transition
  function.  DOM inputs (the container client height, the scroll metrics)
  are explicit parameters of the transitions that read them.
* Asynchronous actions that a handler schedules rather than runs (the
  260ms pre-scroll started by a batch open, the 320ms settle scroll
  scheduled on the next animation frame) are returned as an `Effect`
  list; the completion callback of the batch pre-scroll is the separate
  transition `preScrollDone`, and the unpin fallback timeout body is the
  separate transition `unpinTimerFire`.
* `entryHeights` (a JS `Map`, iterated in insertion order) is an
  association list; `animatingEntryIds` (a JS `Set`) is a duplicate-free
  list in insertion order.
* The jump-button geometry (`updateJumpBtnPosition`, the `jumpBtnTop`
  state field) is pure presentation and is read by nothing modelled here,
  so it is omitted from the record.
-/

namespace UIScroller

/-- Asynchronous scroll actions a handler schedules.  `preScroll d` stands
for `scrollToBottomSmooth(d, cb)` at the batch open (UIWindow.tsx:335,341),
whose callback `cb` is modelled by `preScrollDone`; `settleScroll d` stands
for `requestAnimationFrame(() => this.scrollToBottomSmooth(d))`
(UIWindow.tsx:367). -/
inductive Effect where
  | preScroll (durationMs : Nat)
  | settleScroll (durationMs : Nat)
  deriving DecidableEq

/-- State of one in-flight smooth scroll animation: the closure state of
`scrollToBottomSmooth` (UIWindow.tsx:214-258).  `cancelled` is the flag set
by the handle's `cancel` and checked at the top of every frame step. -/
structure SmoothScroll where
  startPos : Int
  endPos : Int
  t0 : Nat
  durationMs : Nat
  cancelled : Bool
  deriving DecidableEq

/-- Outcome of one animation-frame step of a smooth scroll. -/
inductive StepResult where
  | running
  | completed
  | aborted
  deriving DecidableEq

/-- One frame step of `scrollToBottomSmooth` at time `t` (UIWindow.tsx:
237-248): a cancelled animation does nothing (`if (cancelled) return`);
once `dt = min(1, (t - t0)/duration)` reaches 1, i.e. `t0 + duration ≤ t`,
the step restores scroll behaviour and fires `onDone`; otherwise it
re-schedules itself. -/
def smoothStep (a : SmoothScroll) (t : Nat) : StepResult :=
  if a.cancelled then .aborted
  else if a.t0 + a.durationMs ≤ t then .completed
  else .running

/-- Mutable state of the `UIWindow` component (UIWindow.tsx:36-62): React
state (`spacerPx`, `scrollable`, `showJump`) plus the instance fields of
the coordinator. -/
structure Coordinator where
  entryHeights : List (Nat × Int)
  animatingEntryIds : List Nat
  batchActive : Bool
  animationGateOpen : Bool
  animationWaiters : List Nat
  pinActive : Bool
  unpinTimer : Option Nat
  animationHandle : Option SmoothScroll
  spacerPx : Int
  scrollable : Bool
  showJump : Bool
  deriving DecidableEq

/-- Initial component state (UIWindow.tsx:36,41-58). -/
def initialCoordinator : Coordinator :=
  { entryHeights := []
    animatingEntryIds := []
    batchActive := false
    animationGateOpen := true
    animationWaiters := []
    pinActive := false
    unpinTimer := none
    animationHandle := none
    spacerPx := 0
    scrollable := false
    showJump := false }

/-- Epsilon for scroll and height comparisons (UIWindow.tsx:62). -/
def EPSILON : Int := 2

/-- `Map.set` in insertion order: overwrite an existing key in place,
otherwise append. -/
def setHeight (id : Nat) (h : Int) : List (Nat × Int) → List (Nat × Int)
  | [] => [(id, h)]
  | (k, v) :: rest =>
      if k = id then (k, h) :: rest else (k, v) :: setHeight id h rest

/-- `Map.delete`. -/
def deleteHeight (id : Nat) (m : List (Nat × Int)) : List (Nat × Int) :=
  m.filter (fun p => p.1 != id)

/-- `Map.get` (used only in theorem statements, to read a recorded
height). -/
def lookupHeight (id : Nat) (m : List (Nat × Int)) : Option Int :=
  (m.find? (fun p => p.1 == id)).map (fun p => p.2)

/-- `Set.add` guarded by `has` (UIWindow.tsx:349). -/
def insertId (id : Nat) (l : List Nat) : List Nat :=
  if l.contains id then l else l ++ [id]

/-- `Set.delete`. -/
def removeId (id : Nat) (l : List Nat) : List Nat :=
  l.filter (fun k => k != id)

/-- `sumEntryHeights` (UIWindow.tsx:153-157): sum of all recorded entry
heights. -/
def sumEntryHeights (s : Coordinator) : Int :=
  (s.entryHeights.map (fun p => p.2)).sum

/-- `recomputeSpacer` (UIWindow.tsx:163-185).  `containerHeight` is
`Math.round(el?.clientHeight ?? 0)`.  `raw = containerHeight −
entriesHeight`, `spacer = max(0, raw)`, `scrollable = raw ≤ EPSILON`;
`showJump` keeps its previous value except that it is forced to `false`
when not scrollable or while a batch or the pin loop is active. -/
def recomputeSpacer (containerHeight : Int) (s : Coordinator) : Coordinator :=
  let raw := containerHeight - sumEntryHeights s
  let spacer := max 0 raw
  let scrollable : Bool := decide (raw ≤ EPSILON)
  let showJump :=
    if !scrollable then false
    else if s.batchActive || s.pinActive then false
    else s.showJump
  { s with spacerPx := spacer, scrollable := scrollable, showJump := showJump }

/-- `isAtBottom` (UIWindow.tsx:192-197): distance between the maximal and
the current scroll offset is within `EPSILON`. -/
def isAtBottom (scrollHeight clientHeight scrollTop : Int) : Bool :=
  decide (|scrollHeight - clientHeight - scrollTop| ≤ EPSILON)

/-- `waitToAnimate` (UIWindow.tsx:68-72): with the gate open the promise
resolves immediately (`true`); with the gate closed the resolver `tok` is
queued. -/
def waitToAnimate (tok : Nat) (s : Coordinator) : Coordinator × Bool :=
  if s.animationGateOpen then (s, true)
  else ({ s with animationWaiters := s.animationWaiters ++ [tok] }, false)

/-- `openGate` (UIWindow.tsx:73-78): a no-op when already open; otherwise
opens the gate, empties the waiter queue with `splice(0)` and releases
exactly the spliced waiters (returned second). -/
def openGate (s : Coordinator) : Coordinator × List Nat :=
  if s.animationGateOpen then (s, [])
  else
    ({ s with animationGateOpen := true, animationWaiters := [] },
      s.animationWaiters)

/-- `closeGate` (UIWindow.tsx:79). -/
def closeGate (s : Coordinator) : Coordinator :=
  { s with animationGateOpen := false }

/-- `startPin` (UIWindow.tsx:263-274): a no-op when already pinned;
otherwise marks the pin loop active and hides the jump button.  The
per-frame `scrollToBottomInstant` body acts only on the DOM scroll
offset. -/
def startPin (s : Coordinator) : Coordinator :=
  if s.pinActive then s
  else { s with pinActive := true, showJump := false }

/-- `stopPin` (UIWindow.tsx:277-281): marks the pin loop inactive and
detaches its frame callback. -/
def stopPin (s : Coordinator) : Coordinator :=
  { s with pinActive := false }

/-- `armUnpinFallback` (UIWindow.tsx:309-318): clears any previous timer
and arms a new `ms` timeout whose body is `unpinTimerFire`. -/
def armUnpinFallback (ms : Nat) (s : Coordinator) : Coordinator :=
  { s with unpinTimer := some ms }

/-- Body of the unpin fallback timeout (UIWindow.tsx:311-317): only when
the pin loop is active and the animating set is empty does it stop the pin
and recompute the spacer; in every case the timer handle is cleared. -/
def unpinTimerFire (containerHeight : Int) (s : Coordinator) : Coordinator :=
  let s1 :=
    if s.pinActive && s.animatingEntryIds.isEmpty then
      recomputeSpacer containerHeight (stopPin s)
    else s
  { s1 with unpinTimer := none }

/-- `cancelSmooth` (UIWindow.tsx:143-147): suppressed entirely while a
batch is active with the gate closed; otherwise the stored handle's
`cancel` runs (setting the animation's `cancelled` flag) and the handle is
cleared.  The second component is the post-call state of the in-flight
animation closure. -/
def cancelSmooth (s : Coordinator) : Coordinator × Option SmoothScroll :=
  if s.batchActive && !s.animationGateOpen then (s, s.animationHandle)
  else
    ({ s with animationHandle := none },
      s.animationHandle.map (fun a => { a with cancelled := true }))

/-- `handleResize` (UIWindow.tsx:120-128), the `window` resize listener:
a no-op while the pin loop is active; otherwise recomputes `showJump` from
scrollability and the near-bottom test.  (It does not consult
`batchActive`.) -/
def handleResize (scrollHeight clientHeight scrollTop : Int)
    (s : Coordinator) : Coordinator :=
  if s.pinActive then s
  else
    let nearBottom := isAtBottom scrollHeight clientHeight scrollTop
    { s with showJump := s.scrollable && !nearBottom }

/-- `onScroll` (UIWindow.tsx:289-297): ignored while pinned or batching;
otherwise recomputes `showJump` from scrollability and the near-bottom
test. -/
def onScroll (scrollHeight clientHeight scrollTop : Int)
    (s : Coordinator) : Coordinator :=
  if s.pinActive || s.batchActive then s
  else
    let nearBottom := isAtBottom scrollHeight clientHeight scrollTop
    { s with showJump := s.scrollable && !nearBottom }

/-- `onExpandBegin` (UIWindow.tsx:326-351): records the height; if no
batch is active it opens one (marks the batch active, closes the gate,
hides the jump button, starts the 260ms pre-scroll whose completion is
`preScrollDone`); then adds the id to the animating set and recomputes the
spacer.  In the source the two branches of `if (this.state.showJump)` run
the same pre-scroll and differ only in issuing `setState({showJump:
false})`, whose result equals unconditionally storing `false`. -/
def onExpandBegin (id : Nat) (height : Int) (containerHeight : Int)
    (s : Coordinator) : Coordinator × List Effect :=
  let s0 := { s with entryHeights := setHeight id height s.entryHeights }
  let opened :=
    if !s0.batchActive then
      ({ closeGate { s0 with batchActive := true } with showJump := false },
        [Effect.preScroll 260])
    else (s0, ([] : List Effect))
  let s1 := { opened.1 with
    animatingEntryIds := insertId id opened.1.animatingEntryIds }
  (recomputeSpacer containerHeight s1, opened.2)

/-- Completion callback of the batch pre-scroll (UIWindow.tsx:336-338,
342-344): starts the pin loop, opens the gate (the second component lists
the released waiters) and arms the 1200ms unpin fallback. -/
def preScrollDone (s : Coordinator) : Coordinator × List Nat :=
  let s1 := startPin s
  let opened := openGate s1
  (armUnpinFallback 1200 opened.1, opened.2)

/-- `onExpandEnd` (UIWindow.tsx:358-370).  The lifecycle channel declares
`onExpandEnd(id, final?)` (WindowContext.tsx) and `OuterEntry` passes a
new height on resize (OuterEntry.tsx:83), but the implementation binds
only `id`, so `finalHeight` is never read.  An id outside the animating
set returns immediately; otherwise the id is removed and, when the set
becomes empty, the fallback timer is cleared, the pin stops, the spacer is
recomputed, a 320ms settle scroll is scheduled on the next frame and the
batch is marked inactive. -/
def onExpandEnd (id : Nat) (finalHeight : Option Int) (containerHeight : Int)
    (s : Coordinator) : Coordinator × List Effect :=
  if !s.animatingEntryIds.contains id then (s, [])
  else
    let s1 := { s with animatingEntryIds := removeId id s.animatingEntryIds }
    if s1.animatingEntryIds.isEmpty then
      let s2 := recomputeSpacer containerHeight
        (stopPin { s1 with unpinTimer := none })
      ({ s2 with batchActive := false }, [Effect.settleScroll 320])
    else (s1, [])

/-- `onUnmount` (UIWindow.tsx:377-381): deletes the id from the height map
and the animating set, then recomputes the spacer.  The channel declares a
`lastHeight?` argument (WindowContext.tsx) that the implementation never
reads. -/
def onUnmount (id : Nat) (lastHeight : Option Int) (containerHeight : Int)
    (s : Coordinator) : Coordinator :=
  recomputeSpacer containerHeight
    { s with
      entryHeights := deleteHeight id s.entryHeights
      animatingEntryIds := removeId id s.animatingEntryIds }

/-- A coordinator whose single entry 1 settled at height 150 inside a
400px container: no batch, no pin, empty animating set (spacer 250,
not scrollable). -/
def settledState : Coordinator :=
  { initialCoordinator with
      entryHeights := [(1, 150)], spacerPx := 250, scrollable := false }

/-- A coordinator mid-batch whose only entry 1 began expanding but never
reported completion: batch active, pin loop running, fallback timer armed,
animating set `{1}`. -/
def gridlockState : Coordinator :=
  { initialCoordinator with
      entryHeights := [(1, 150)], animatingEntryIds := [1],
      batchActive := true, pinActive := true, unpinTimer := some 1200,
      spacerPx := 250 }

/-- A coordinator like `gridlockState` whose animating set has already
drained (for instance because the animating entry unmounted) while the
pin loop and batch flag are still set. -/
def drainedPinState : Coordinator :=
  { initialCoordinator with
      batchActive := true, pinActive := true, unpinTimer := some 1200 }

/-- A coordinator with an open batch (gate closed, entry 1 animating),
used to exercise a second `beginExpand` while the batch is active. -/
def batchOpenState : Coordinator :=
  { initialCoordinator with
      entryHeights := [(1, 150)], animatingEntryIds := [1],
      batchActive := true, animationGateOpen := false }

/-- Operations a client of the animation gate can perform: an entry
awaiting the gate with resolver token `tok` (`waitToAnimate`), the
coordinator opening the gate (`openGate`), the coordinator closing it
(`closeGate`). -/
inductive GateOp where
  | wait (tok : Nat)
  | openG
  | closeG
  deriving DecidableEq

/-- One gate operation on the coordinator.  Returns the new state, the
waiters released by this operation, and the waiters resolved immediately
(an immediately-resolved `waitToAnimate` call). -/
def gateStep (s : Coordinator) : GateOp → Coordinator × List Nat × List Nat
  | .wait tok =>
      let r := waitToAnimate tok s
      (r.1, [], if r.2 then [tok] else [])
  | .openG =>
      let r := openGate s
      (r.1, r.2, [])
  | .closeG => (closeGate s, [], [])

/-- Run a sequence of gate operations, accumulating released and
immediately-resolved waiters in order. -/
def gateRun (s : Coordinator) : List GateOp → Coordinator × List Nat × List Nat
  | [] => (s, [], [])
  | op :: ops =>
      let r1 := gateStep s op
      let r2 := gateRun r1.1 ops
      (r2.1, r1.2.1 ++ r2.2.1, r1.2.2 ++ r2.2.2)

/-- Tokens of all `wait` operations in a sequence, in order. -/
def waitToks : List GateOp → List Nat
  | [] => []
  | .wait tok :: ops => tok :: waitToks ops
  | .openG :: ops => waitToks ops
  | .closeG :: ops => waitToks ops

/-- A demonstration gate schedule: close, two waiters queue up, open. -/
def gateDemoOps : List GateOp :=
  [GateOp.closeG, GateOp.wait 7, GateOp.wait 8, GateOp.openG]

/-- The closure state of a 260ms batch pre-scroll started at t = 1000,
not cancelled. -/
def preScrollAnim : SmoothScroll :=
  { startPos := 0, endPos := 50, t0 := 1000, durationMs := 260,
    cancelled := false }

/-- A coordinator in the pre-scroll phase of a batch: batch active, gate
closed, pin not yet started, three 150px entries filling a 400px
container (scrollable), jump button currently hidden, the 260ms batch
pre-scroll in flight. -/
def preScrollState : Coordinator :=
  { initialCoordinator with
      entryHeights := [(1, 150), (2, 150), (3, 150)]
      animatingEntryIds := [3]
      batchActive := true
      animationGateOpen := false
      animationHandle := some preScrollAnim
      scrollable := true }

/-- A quiescent coordinator with a user-initiated 520ms smooth scroll in
flight (no batch, gate open). -/
def freeScrollState : Coordinator :=
  { settledState with
      animationHandle :=
        some { startPos := 300, endPos := 0, t0 := 2000,
               durationMs := 520, cancelled := false } }

/-- C1: For every map of entry heights summing to S and every container
height C, recomputing the spacer sets `spacer = max(0, C − S)` and sets
`scrollable` to true if and only if `C − S ≤ ε` with `ε = 2`px. -/
theorem C1_spacer_invariant (containerHeight : Int) (s : Coordinator) :
    (recomputeSpacer containerHeight s).spacerPx
        = max 0 (containerHeight - sumEntryHeights s)
    ∧ ((recomputeSpacer containerHeight s).scrollable = true
        ↔ containerHeight - sumEntryHeights s ≤ EPSILON) := by
  refine ⟨rfl, ?_⟩
  simp [recomputeSpacer]

/-- C2: The claim says `endExpand(id, newHeight)` on an already-settled
entry updates the recorded height and recomputes the spacer.  Evaluating
the code at the failing input: entry 1 settled at 150px, then
`onExpandEnd 1 (some 220)` returns with the whole state unchanged — the
height map still records 150 and no recompute happens, because the
implementation early-returns for ids outside the animating set and never
reads the height argument. -/
theorem C2_endExpand_drops_height :
    onExpandEnd 1 (some 220) 400 settledState = (settledState, [])
    ∧ lookupHeight 1
        (onExpandEnd 1 (some 220) 400 settledState).1.entryHeights
        = some 150 := by
  exact ⟨rfl, rfl⟩

/-- C3: The claim says the fallback timer force-closes the batch when no
entry ever reports completion.  Evaluating the code at the failing input:
with entry 1 still animating, the fired timer only clears its own handle —
the pin loop keeps running and the batch stays active; and even on the
path where the guard passes (animating set already drained), the batch
flag is still not cleared. -/
theorem C3_fallback_does_not_close :
    unpinTimerFire 400 gridlockState = { gridlockState with unpinTimer := none }
    ∧ (unpinTimerFire 400 gridlockState).pinActive = true
    ∧ (unpinTimerFire 400 gridlockState).batchActive = true
    ∧ (unpinTimerFire 400 drainedPinState).batchActive = true := by
  exact ⟨rfl, rfl, rfl, rfl⟩

/-- C4: The first `beginExpand` while no batch is active opens the batch
(closes the gate, hides the jump button, starts the 260ms pre-scroll
exactly once); every further `beginExpand` while the batch is active only
records the height, adds the id to the animating set and recomputes the
spacer — it emits no pre-scroll, leaves the gate and pin state untouched
and keeps the batch active. -/
theorem C4_batch_singularity (id : Nat) (height containerHeight : Int)
    (s : Coordinator) :
    (s.batchActive = false →
      onExpandBegin id height containerHeight s
        = (recomputeSpacer containerHeight
            { s with
                entryHeights := setHeight id height s.entryHeights
                batchActive := true
                animationGateOpen := false
                showJump := false
                animatingEntryIds := insertId id s.animatingEntryIds },
            [Effect.preScroll 260]))
    ∧ (s.batchActive = true →
      onExpandBegin id height containerHeight s
        = (recomputeSpacer containerHeight
            { s with
                entryHeights := setHeight id height s.entryHeights
                animatingEntryIds := insertId id s.animatingEntryIds },
            [])
      ∧ (onExpandBegin id height containerHeight s).1.animationGateOpen
          = s.animationGateOpen
      ∧ (onExpandBegin id height containerHeight s).1.batchActive = true
      ∧ (onExpandBegin id height containerHeight s).1.pinActive
          = s.pinActive) := by
  constructor
  · intro hb
    simp [onExpandBegin, closeGate, hb]
  · intro hb
    refine ⟨?_, ?_, ?_, ?_⟩ <;>
      simp [onExpandBegin, hb, recomputeSpacer]

/-- Witness for C4 at a concrete input: a second entry begins expanding
while `batchOpenState`'s batch is active. -/
theorem C4_batch_singularity_witness :
    onExpandBegin 2 100 400 batchOpenState
      = (recomputeSpacer 400
          { batchOpenState with
              entryHeights := setHeight 2 100 batchOpenState.entryHeights
              animatingEntryIds :=
                insertId 2 batchOpenState.animatingEntryIds },
          [])
    ∧ (onExpandBegin 2 100 400 batchOpenState).1.batchActive = true :=
  ⟨((C4_batch_singularity 2 100 400 batchOpenState).2 rfl).1,
    ((C4_batch_singularity 2 100 400 batchOpenState).2 rfl).2.2.1⟩

/-- C10: For every id not currently in the animating set, `onExpandEnd`
returns without modifying any coordinator state and emits no effect, so a
duplicate or late end-expand report can never trigger a second batch close
or settle scroll. -/
theorem C10_late_end_is_noop (id : Nat) (finalHeight : Option Int)
    (containerHeight : Int) (s : Coordinator)
    (h : s.animatingEntryIds.contains id = false) :
    onExpandEnd id finalHeight containerHeight s = (s, []) := by
  unfold onExpandEnd
  simp only [h, Bool.not_false, if_true]

/-- Witness for C10 at a concrete input: a late `onExpandEnd` for the
settled entry 1. -/
theorem C10_late_end_is_noop_witness :
    onExpandEnd 1 none 400 settledState = (settledState, []) :=
  C10_late_end_is_noop 1 none 400 settledState rfl

lemma deleteHeight_of_untracked (id : Nat) (m : List (Nat × Int))
    (h : lookupHeight id m = none) : deleteHeight id m = m := by
  have h2 : ∀ p ∈ m, p.1 ≠ id := by
    intro p hp
    simp only [lookupHeight, Option.map_eq_none', List.find?_eq_none,
      beq_iff_eq] at h
    exact h p hp
  unfold deleteHeight
  rw [List.filter_eq_self]
  intro a ha
  simpa using h2 a ha

lemma removeId_of_not_mem (id : Nat) (l : List Nat) (h : id ∉ l) :
    removeId id l = l := by
  unfold removeId
  rw [List.filter_eq_self]
  intro a ha
  simp only [bne_iff_ne, ne_eq]
  intro heq
  exact h (heq ▸ ha)

/-- C9: `onUnmount` is total and idempotent: it always equals deleting the
id from the height map and the animating set followed by a spacer
recompute; in particular for an id that is neither tracked nor animating
both structures are left unchanged, and for a tracked id the entry is
removed from both. -/
theorem C9_unmount_idempotent (id : Nat) (lastHeight : Option Int)
    (containerHeight : Int) (s : Coordinator) :
    (onUnmount id lastHeight containerHeight s
        = recomputeSpacer containerHeight
            { s with
                entryHeights := deleteHeight id s.entryHeights
                animatingEntryIds := removeId id s.animatingEntryIds })
    ∧ ((onUnmount id lastHeight containerHeight s).entryHeights
          = deleteHeight id s.entryHeights
        ∧ (onUnmount id lastHeight containerHeight s).animatingEntryIds
          = removeId id s.animatingEntryIds)
    ∧ (lookupHeight id s.entryHeights = none → id ∉ s.animatingEntryIds →
        (onUnmount id lastHeight containerHeight s).entryHeights
            = s.entryHeights
        ∧ (onUnmount id lastHeight containerHeight s).animatingEntryIds
            = s.animatingEntryIds) := by
  refine ⟨rfl, ⟨rfl, rfl⟩, ?_⟩
  intro h1 h2
  constructor
  · show deleteHeight id s.entryHeights = s.entryHeights
    exact deleteHeight_of_untracked id s.entryHeights h1
  · show removeId id s.animatingEntryIds = s.animatingEntryIds
    exact removeId_of_not_mem id s.animatingEntryIds h2

/-- Witness for C9 at a concrete input: unmounting the untracked id 9 in
`settledState` leaves both structures unchanged. -/
theorem C9_unmount_idempotent_witness :
    (onUnmount 9 none 400 settledState).entryHeights
        = settledState.entryHeights
    ∧ (onUnmount 9 none 400 settledState).animatingEntryIds
        = settledState.animatingEntryIds :=
  (C9_unmount_idempotent 9 none 400 settledState).2.2 rfl (by decide)

/-- C6 counterexample: in `preScrollState` a batch is active (pre-scroll
phase, pin loop not yet started) and the jump button is hidden, yet the
window-resize handler — with the viewport 50px away from the bottom —
turns the button visible, because `handleResize` consults only
`pinActive` and not `batchActive`.  This refutes the claim that every
recomputation forces visibility to false while a batch is active. -/
theorem C6_counterexample :
    preScrollState.batchActive = true
    ∧ preScrollState.showJump = false
    ∧ (handleResize 450 400 0 preScrollState).showJump = true := by
  refine ⟨rfl, rfl, ?_⟩
  decide

/-- C6 amended: visibility is forced false by every spacer recompute
while a batch or the pin loop is active; scroll events leave the state
untouched while a batch or the pin loop is active; the window-resize
handler suppresses recomputation only while the pin loop runs — with the
pin loop off it sets visibility to `scrollable ∧ ¬ nearBottom` even
mid-batch. -/
theorem C6_jump_suppression (scrollHeight clientHeight scrollTop
    containerHeight : Int) (s : Coordinator) :
    ((s.batchActive = true ∨ s.pinActive = true) →
        (recomputeSpacer containerHeight s).showJump = false)
    ∧ ((s.pinActive = true ∨ s.batchActive = true) →
        onScroll scrollHeight clientHeight scrollTop s = s)
    ∧ (s.pinActive = true →
        handleResize scrollHeight clientHeight scrollTop s = s)
    ∧ (s.pinActive = false →
        (handleResize scrollHeight clientHeight scrollTop s).showJump
          = (s.scrollable
              && !isAtBottom scrollHeight clientHeight scrollTop)) := by
  refine ⟨?_, ?_, ?_, ?_⟩
  · intro h
    rcases h with h | h <;> simp [recomputeSpacer, h]
  · intro h
    rcases h with h | h <;> simp [onScroll, h]
  · intro h
    simp [handleResize, h]
  · intro h
    simp [handleResize, h]

/-- Witness for C6 at concrete inputs: a spacer recompute during
`gridlockState`'s batch keeps the button hidden, and a resize with the pin
loop off recomputes visibility from geometry. -/
theorem C6_jump_suppression_witness :
    (recomputeSpacer 400 gridlockState).showJump = false
    ∧ (handleResize 450 400 0 preScrollState).showJump
        = (preScrollState.scrollable && !isAtBottom 450 400 0) :=
  ⟨(C6_jump_suppression 450 400 0 400 gridlockState).1 (Or.inl rfl),
    (C6_jump_suppression 450 400 0 400 preScrollState).2.2.2 rfl⟩

/-- C7 counterexample: in `gridlockState` the animating set becomes empty
through `onUnmount` of the last animating entry, yet the batch does not
close — the batch flag and pin loop stay set and the fallback timer stays
armed.  This refutes the claim that the batch closes whenever the
animating set becomes empty. -/
theorem C7_counterexample :
    (onUnmount 1 none 400 gridlockState).animatingEntryIds = []
    ∧ (onUnmount 1 none 400 gridlockState).batchActive = true
    ∧ (onUnmount 1 none 400 gridlockState).pinActive = true
    ∧ (onUnmount 1 none 400 gridlockState).unpinTimer = some 1200 := by
  exact ⟨rfl, rfl, rfl, rfl⟩

/-- C7 amended: whenever the animating set becomes empty through an
`endExpand` call, the batch closes with exactly the claimed steps: the
fallback timer is cancelled, the pin loop stops, the spacer is recomputed
(per the C1 formula), one 320ms settle scroll is scheduled on the next
frame, and the batch is marked inactive. -/
theorem C7_batch_close (id : Nat) (finalHeight : Option Int)
    (containerHeight : Int) (s : Coordinator)
    (hmem : s.animatingEntryIds.contains id = true)
    (hlast : removeId id s.animatingEntryIds = []) :
    (onExpandEnd id finalHeight containerHeight s).1.unpinTimer = none
    ∧ (onExpandEnd id finalHeight containerHeight s).1.pinActive = false
    ∧ (onExpandEnd id finalHeight containerHeight s).1.batchActive = false
    ∧ (onExpandEnd id finalHeight containerHeight s).2
        = [Effect.settleScroll 320]
    ∧ (onExpandEnd id finalHeight containerHeight s).1.spacerPx
        = max 0 (containerHeight - sumEntryHeights s)
    ∧ ((onExpandEnd id finalHeight containerHeight s).1.scrollable = true
        ↔ containerHeight - sumEntryHeights s ≤ EPSILON) := by
  unfold onExpandEnd
  simp only [hmem, Bool.not_true, Bool.false_eq_true, if_false, hlast,
    List.isEmpty_nil, if_true]
  simp [recomputeSpacer, stopPin, sumEntryHeights]

/-- Witness for C7 at a concrete input: entry 1 — the only animating
entry of `gridlockState` — reports completion. -/
theorem C7_batch_close_witness :
    (onExpandEnd 1 none 400 gridlockState).1.batchActive = false
    ∧ (onExpandEnd 1 none 400 gridlockState).2
        = [Effect.settleScroll 320] :=
  ⟨(C7_batch_close 1 none 400 gridlockState rfl rfl).2.2.1,
    (C7_batch_close 1 none 400 gridlockState rfl rfl).2.2.2.1⟩

/-- C8: A user gesture (wheel, touch-start, pointer-down — all bound to
`cancelSmooth`) aborts any in-flight smooth scroll except while a batch is
active with the gate closed: in that phase the call leaves the coordinator
and the animation untouched, so an uncancelled pre-scroll step completes
once `t0 + duration ≤ t`; in every other phase the handle is cleared, the
in-flight animation's cancelled flag is set, and each later frame step
aborts. -/
theorem C8_cancel_policy (s : Coordinator) (t : Nat) :
    (s.batchActive = true → s.animationGateOpen = false →
      cancelSmooth s = (s, s.animationHandle)
      ∧ (∀ a, s.animationHandle = some a → a.cancelled = false →
          a.t0 + a.durationMs ≤ t → smoothStep a t = StepResult.completed))
    ∧ ((s.batchActive = false ∨ s.animationGateOpen = true) →
      (cancelSmooth s).1.animationHandle = none
      ∧ (cancelSmooth s).2
          = s.animationHandle.map (fun a => { a with cancelled := true })
      ∧ (∀ a, (cancelSmooth s).2 = some a →
          smoothStep a t = StepResult.aborted)) := by
  constructor
  · intro hb hg
    constructor
    · simp [cancelSmooth, hb, hg]
    · intro a _ hc hdone
      simp [smoothStep, hc, hdone]
  · intro h
    have hcond : (s.batchActive && !s.animationGateOpen) = false := by
      rcases h with h | h <;> simp [h]
    constructor
    · simp [cancelSmooth, hcond]
    · constructor
      · simp [cancelSmooth, hcond]
      · intro a ha
        simp only [cancelSmooth, hcond, Bool.false_eq_true, if_false,
          Option.map_eq_some'] at ha
        obtain ⟨b, _, hb2⟩ := ha
        rw [← hb2]
        simp [smoothStep]

/-- Witness for C8 at concrete inputs: during `preScrollState`'s
closed-gate batch a gesture leaves the pre-scroll untouched and the
pre-scroll step at t = 1300 ≥ 1000 + 260 completes; outside a batch
(`freeScrollState`) a gesture clears the handle. -/
theorem C8_cancel_policy_witness :
    cancelSmooth preScrollState = (preScrollState, preScrollState.animationHandle)
    ∧ smoothStep preScrollAnim 1300 = StepResult.completed
    ∧ (cancelSmooth freeScrollState).1.animationHandle = none :=
  ⟨((C8_cancel_policy preScrollState 1300).1 rfl rfl).1,
    ((C8_cancel_policy preScrollState 1300).1 rfl rfl).2
      preScrollAnim rfl rfl (by decide),
    ((C8_cancel_policy freeScrollState 1300).2 (Or.inr rfl)).1⟩

lemma gateRun_inv_conservation (ops : List GateOp) :
    ∀ s0 : Coordinator,
      (s0.animationGateOpen = true → s0.animationWaiters = []) →
      ((gateRun s0 ops).1.animationGateOpen = true →
          (gateRun s0 ops).1.animationWaiters = [])
      ∧ ∀ x : Nat,
          ((gateRun s0 ops).2.2 ++ (gateRun s0 ops).2.1
            ++ (gateRun s0 ops).1.animationWaiters).count x
          = (waitToks ops ++ s0.animationWaiters).count x := by
  induction ops with
  | nil =>
      intro s0 h0
      exact ⟨h0, fun x => by simp [gateRun, waitToks]⟩
  | cons op ops ih =>
      intro s0 h0
      cases op with
      | wait tok =>
          cases hO : s0.animationGateOpen with
          | true =>
              have step :
                  gateRun s0 (GateOp.wait tok :: ops)
                    = ((gateRun s0 ops).1, (gateRun s0 ops).2.1,
                        tok :: (gateRun s0 ops).2.2) := by
                simp [gateRun, gateStep, waitToAnimate, hO]
              obtain ⟨hinv, hcnt⟩ := ih s0 h0
              rw [step]
              refine ⟨hinv, fun x => ?_⟩
              have := hcnt x
              simp only [waitToks, List.count_append, List.count_cons] at *
              omega
          | false =>
              have step :
                  gateRun s0 (GateOp.wait tok :: ops)
                    = gateRun { s0 with
                        animationWaiters := s0.animationWaiters ++ [tok] }
                        ops := by
                simp [gateRun, gateStep, waitToAnimate, hO]
              have h1 : ({ s0 with
                    animationWaiters := s0.animationWaiters ++ [tok]
                  } : Coordinator).animationGateOpen = true →
                  ({ s0 with
                    animationWaiters := s0.animationWaiters ++ [tok]
                  } : Coordinator).animationWaiters = [] := by
                intro hh
                exact absurd hh (by simp [hO])
              obtain ⟨hinv, hcnt⟩ := ih { s0 with
                animationWaiters := s0.animationWaiters ++ [tok] } h1
              rw [step]
              refine ⟨hinv, fun x => ?_⟩
              have := hcnt x
              simp only [waitToks, List.count_append, List.count_cons,
                List.count_nil] at *
              omega
      | openG =>
          cases hO : s0.animationGateOpen with
          | true =>
              have step :
                  gateRun s0 (GateOp.openG :: ops) = gateRun s0 ops := by
                simp [gateRun, gateStep, openGate, hO]
              obtain ⟨hinv, hcnt⟩ := ih s0 h0
              rw [step]
              refine ⟨hinv, fun x => ?_⟩
              have := hcnt x
              simp only [waitToks, List.count_append] at *
              omega
          | false =>
              have step :
                  gateRun s0 (GateOp.openG :: ops)
                    = ((gateRun { s0 with
                          animationGateOpen := true, animationWaiters := []
                        } ops).1,
                        s0.animationWaiters ++ (gateRun { s0 with
                          animationGateOpen := true, animationWaiters := []
                        } ops).2.1,
                        (gateRun { s0 with
                          animationGateOpen := true, animationWaiters := []
                        } ops).2.2) := by
                simp [gateRun, gateStep, openGate, hO]
              have h1 : ({ s0 with
                    animationGateOpen := true, animationWaiters := []
                  } : Coordinator).animationGateOpen = true →
                  ({ s0 with
                    animationGateOpen := true, animationWaiters := []
                  } : Coordinator).animationWaiters = [] := fun _ => rfl
              obtain ⟨hinv, hcnt⟩ := ih { s0 with
                animationGateOpen := true, animationWaiters := [] } h1
              rw [step]
              refine ⟨hinv, fun x => ?_⟩
              have := hcnt x
              simp only [waitToks, List.count_append, List.count_nil] at *
              omega
      | closeG =>
          have step :
              gateRun s0 (GateOp.closeG :: ops)
                = gateRun { s0 with animationGateOpen := false } ops := by
            simp [gateRun, gateStep, closeGate]
          have h1 : ({ s0 with
                animationGateOpen := false
              } : Coordinator).animationGateOpen = true →
              ({ s0 with
                animationGateOpen := false
              } : Coordinator).animationWaiters = [] := by
            intro hh
            exact absurd hh (by simp)
          obtain ⟨hinv, hcnt⟩ :=
            ih { s0 with animationGateOpen := false } h1
          rw [step]
          refine ⟨hinv, fun x => ?_⟩
          have := hcnt x
          simp only [waitToks, List.count_append] at *
          omega

/-- C5: The animation gate protocol.  `waitToAnimate` resolves immediately
exactly when the gate is open and otherwise enqueues the resolver;
`openGate` on a closed gate releases the whole queue at once and empties
it; and along every operation sequence starting from a state whose open
gate has an empty queue, the queue is empty whenever the gate is open, and
every wait token is accounted exactly once among the immediately-resolved,
the released and the still-queued waiters — no waiter is released twice or
stranded. -/
theorem C5_gate_protocol (tok : Nat) (s : Coordinator) (ops : List GateOp)
    (s0 : Coordinator)
    (h0 : s0.animationGateOpen = true → s0.animationWaiters = []) :
    (s.animationGateOpen = true → waitToAnimate tok s = (s, true))
    ∧ (s.animationGateOpen = false →
        waitToAnimate tok s
          = ({ s with animationWaiters := s.animationWaiters ++ [tok] },
              false))
    ∧ (s.animationGateOpen = false →
        openGate s
          = ({ s with animationGateOpen := true, animationWaiters := [] },
              s.animationWaiters))
    ∧ ((gateRun s0 ops).1.animationGateOpen = true →
        (gateRun s0 ops).1.animationWaiters = [])
    ∧ (∀ x : Nat,
        ((gateRun s0 ops).2.2 ++ (gateRun s0 ops).2.1
          ++ (gateRun s0 ops).1.animationWaiters).count x
        = (waitToks ops ++ s0.animationWaiters).count x) := by
  obtain ⟨hinv, hcnt⟩ := gateRun_inv_conservation ops s0 h0
  refine ⟨?_, ?_, ?_, hinv, hcnt⟩
  · intro h
    simp [waitToAnimate, h]
  · intro h
    simp [waitToAnimate, h]
  · intro h
    simp [openGate, h]

/-- Witness for C5 at a concrete input: the schedule `gateDemoOps` (close,
two waiters, open) starting from the initial coordinator ends with an
empty queue, and token 7 is accounted exactly once. -/
theorem C5_gate_protocol_witness :
    waitToAnimate 5 initialCoordinator = (initialCoordinator, true)
    ∧ (gateRun initialCoordinator gateDemoOps).1.animationWaiters = []
    ∧ ((gateRun initialCoordinator gateDemoOps).2.2
        ++ (gateRun initialCoordinator gateDemoOps).2.1
        ++ (gateRun initialCoordinator gateDemoOps).1.animationWaiters).count 7
      = (waitToks gateDemoOps
          ++ initialCoordinator.animationWaiters).count 7 :=
  ⟨(C5_gate_protocol 5 initialCoordinator gateDemoOps initialCoordinator
      (fun _ => rfl)).1 rfl,
    (C5_gate_protocol 5 initialCoordinator gateDemoOps initialCoordinator
      (fun _ => rfl)).2.2.2.1 rfl,
    (C5_gate_protocol 5 initialCoordinator gateDemoOps initialCoordinator
      (fun _ => rfl)).2.2.2.2 7⟩

end UIScroller
